import Mathlib

/-!
Verification development for `excel_graph_parser/graph_parser.py`.

The Python source is shallowly embedded: strings are lists of characters
(`Str`), Python's `str.replace` / single-character `str.split` are modelled by
`pyReplace` / `pySplit`, fallible code returns `Except PyErr`, and the chart /
workbook object graph navigated by `ExcelImageParser` becomes plain Lean
structures.  Each definition mirrors the corresponding Python function or
expression; line numbers in comments refer to `graph_parser.py`.
-/

/-- Python strings, modelled as lists of characters. -/
abbrev Str := List Char

/-- The single-quote character (used in quoted sheet names). -/
def quoteChar : Char := Char.ofNat 39

/-- Fuel-indexed worker for `pyReplace`.  The fuel starts at the length of the
subject string, which always suffices (each step consumes at least one
character). -/
def pyReplaceAux (old new : List Char) : Nat → List Char → List Char
  | _, [] => []
  | 0, c :: rest => c :: rest
  | fuel + 1, c :: rest =>
    if old ≠ [] ∧ old.isPrefixOf (c :: rest) then
      new ++ pyReplaceAux old new fuel (List.drop old.length (c :: rest))
    else
      c :: pyReplaceAux old new fuel rest

/-- Python `s.replace(old, new)`: replace every non-overlapping occurrence of
`old` in `s` by `new`, scanning left to right.  (All call sites in the source
use a non-empty `old`.) -/
def pyReplace (s old new : List Char) : List Char :=
  pyReplaceAux old new s.length s

/-- Python `s.split(sep)` for a single-character separator. -/
def pySplit (sep : Char) : List Char → List (List Char)
  | [] => [[]]
  | c :: rest =>
    if c = sep then
      [] :: pySplit sep rest
    else
      match pySplit sep rest with
      | [] => [[c]]
      | g :: gs => (c :: g) :: gs

/-- Python `lst[0]` on a split result (split results are never empty). -/
def pyHead : List (List Char) → List Char
  | [] => []
  | g :: _ => g

/-- Python `lst[-1]` on a split result (split results are never empty). -/
def pyLast : List (List Char) → List Char
  | [] => []
  | [g] => g
  | _ :: g :: gs => pyLast (g :: gs)

/-!
## Data model

The chart object graph navigated by the Python code, as plain structures.
`Option` models Python attributes that may be `None`; object truthiness of a
present object is `isSome`.
-/

/-- Python exceptions raised by the embedded code. -/
inductive PyErr where
  | keyError (k : String)
  | attributeError
  | valueError
  | indexError
  | typeError
  | userError (msg : String)
deriving DecidableEq

/-- An evaluated cell value (number, text, or empty/`None`). -/
inductive CellVal where
  | num (n : Int)
  | str (s : String)
  | empty
deriving DecidableEq

/-- Python truthiness of a cell value (`if row[0].value:`). -/
def CellVal.truthy : CellVal → Bool
  | .num n => decide (n ≠ 0)
  | .str s => decide (s ≠ "")
  | .empty => false

/-- One entry of a dereferenced worksheet range: an actual `Cell` (whose
`.value` is collected) or a non-`Cell` placeholder such as a merged cell
(skipped by the `type(sub_element) == Cell` check). -/
inductive WsEntry where
  | cell (v : CellVal)
  | merged
deriving DecidableEq

/-- A worksheet, modelled as the mapping from addressable range strings to the
rectangular block (rows of entries) that `ws[range]` returns; a range string
that openpyxl cannot parse is absent and raises. -/
abbrev Ws := List (Str × List (List WsEntry))

/-- A workbook: sheet name to worksheet; `wb[name]` raises `KeyError` when the
name is absent. -/
abbrev Workbook := List (Str × Ws)

/-- Association-list lookup (Python `dict`/mapping indexing). -/
def assocFind {α β : Type} [DecidableEq α] : List (α × β) → α → Option β
  | [], _ => none
  | (k0, v) :: rest, k => if k0 = k then some v else assocFind rest k

/-- Python `dict` assignment `m[k] = v`: overwrite in place if the key exists
(keeping its position), else append. -/
def mapInsert {α β : Type} [DecidableEq α] : List (α × β) → α → β → List (α × β)
  | [], k, v => [(k, v)]
  | (k0, v0) :: rest, k, v =>
    if k0 = k then (k, v) :: rest else (k0, v0) :: mapInsert rest k v

/-- One run of rich text (`title_element.t`). -/
structure TitleRun where
  t : String
deriving DecidableEq

/-- One paragraph of rich text (`p[i].r`). -/
structure TitlePara where
  r : List TitleRun
deriving DecidableEq

/-- Rich-text body (`tx.rich.p`). -/
structure RichText where
  p : List TitlePara
deriving DecidableEq

/-- `title.tx`. -/
structure TitleTx where
  rich : RichText
deriving DecidableEq

/-- A chart or axis title object (`chart.title`, `axis.title`). -/
structure Title where
  tx : TitleTx
deriving DecidableEq

/-- A chart axis (`chart.x_axis` / `chart.y_axis`); only its optional title is
read by the code. -/
structure Axis where
  title : Option Title
deriving DecidableEq

/-- A cached numeric reference (`numRef`): formula string `f` and the
`numCache.formatCode` (which may itself be absent). -/
structure NumRef where
  f : Str
  formatCode : Option String
deriving DecidableEq

/-- A cached string reference (`strRef`): formula string `f`. -/
structure StrRef where
  f : Str
deriving DecidableEq

/-- A series data source (`series.cat`, `series.val`, `series.xVal`,
`series.yVal`): at most one of `strRef` / `numRef` is populated. -/
structure DataSource where
  strRef : Option StrRef
  numRef : Option NumRef
deriving DecidableEq

/-- `series.tx` (series label); only `.v` is read. -/
structure SeriesTx where
  v : Option String
deriving DecidableEq

/-- One raw series descriptor of a chart (`chart.series` element). -/
structure RawSeries where
  xVal : Option DataSource
  yVal : Option DataSource
  cat : Option DataSource
  val : Option DataSource
  tx : Option SeriesTx
deriving DecidableEq

/-- One chart object discovered on a sheet. -/
structure Chart where
  title : Option Title
  tagname : String
  series : List RawSeries
  x_axis : Axis
  y_axis : Axis
deriving DecidableEq

/-- `ALLOWED_FIGURE_TYPES` (line 14). -/
def ALLOWED_FIGURE_TYPES : List String :=
  ["lineChart", "scatterChart", "barChart", "pieChart"]

/-!
## Range Reference Resolver (lines 242-258 and 265-280)
-/

/-- Lines 243-247 / 266-270: `.replace("(", "").replace(")", "").replace("'", "")`. -/
def cleanRef (s : Str) : Str :=
  pyReplace (pyReplace (pyReplace s [Char.ofNat 40] []) [Char.ofNat 41] []) [quoteChar] []

/-- Lines 243-248 / 266-271: `...split(sep="!")[0]` — the sheet-name candidate. -/
def sheetNameOf (s : Str) : Str :=
  pyHead (pySplit (Char.ofNat 33) (cleanRef s))

/-- Lines 258 / 280: collapse a comma-separated body to
`split(",")[0] + ":" + split(",")[-1]` when a comma is present. -/
def commaCollapse (s : Str) : Str :=
  if (Char.ofNat 44) ∈ s then
    pyHead (pySplit (Char.ofNat 44) s) ++ (Char.ofNat 58) :: pyLast (pySplit (Char.ofNat 44) s)
  else
    s

/-- Lines 250-258: the normalized category range — strip parentheses, quotes,
the `SheetName!` prefix and `$`, then collapse commas. -/
def resolveCatRange (s : Str) : Str :=
  commaCollapse
    (pyReplace (pyReplace (cleanRef s) (sheetNameOf s ++ [Char.ofNat 33]) []) [Char.ofNat 36] [])

/-- Lines 273-280: the normalized value range — same pipeline but with no
`.replace('$', "")` step. -/
def resolveValRange (s : Str) : Str :=
  commaCollapse (pyReplace (cleanRef s) (sheetNameOf s ++ [Char.ofNat 33]) [])

/-!
## Cell Range Dereferencer (lines 259-263 / 281-285)
-/

/-- `sub_element.value` if `type(sub_element) == Cell`, else skipped. -/
def cellValOf : WsEntry → Option CellVal
  | .cell v => some v
  | .merged => none

/-- `for element in wb[sheet][rng]: for sub_element in element: ...` —
row-major flattening of the addressed block, keeping actual cells. -/
def derefRange (wb : Workbook) (sheet rng : Str) : Except PyErr (List CellVal) :=
  match assocFind wb sheet with
  | none => .error (.keyError (String.mk sheet))
  | some ws =>
    match assocFind ws rng with
    | none => .error .valueError
    | some grid => .ok ((grid.map (fun row => row.filterMap cellValOf)).flatten)

/-!
## Chart Series Extractor (lines 212-295)
-/

/-- The loop-carried category reference and format
(`input_cat_range` / `input_cat_format`, initialised at lines 213-214). -/
structure CatState where
  range : Str
  format : Option String
deriving DecidableEq

/-- Lines 216-222 (scatter branch): update the carried category reference from
`series.xVal` when present. -/
def updateCatScatter (st : CatState) (s : RawSeries) : CatState :=
  match s.xVal with
  | none => st
  | some xv =>
    match xv.strRef with
    | some sr => { st with range := sr.f }
    | none =>
      match xv.numRef with
      | some nr => { range := nr.f, format := nr.formatCode }
      | none => st

/-- Lines 228-234 (non-scatter branch): the category-reference carry-forward —
update from `series.cat` when present, otherwise keep the previous state. -/
def updateCatNonScatter (st : CatState) (s : RawSeries) : CatState :=
  match s.cat with
  | none => st
  | some cv =>
    match cv.strRef with
    | some sr => { st with range := sr.f }
    | none =>
      match cv.numRef with
      | some nr => { range := nr.f, format := nr.formatCode }
      | none => st

/-- Lines 224-225 / 236-237: the required value reference
(`series.yVal.numRef.f` for scatter, `series.val.numRef.f` otherwise);
a missing attribute raises `AttributeError`. -/
def getValRef (chartType : String) (s : RawSeries) : Except PyErr (Str × Option String) :=
  if chartType = "scatterChart" then
    match s.yVal with
    | none => .error .attributeError
    | some yv =>
      match yv.numRef with
      | none => .error .attributeError
      | some nr => .ok (nr.f, nr.formatCode)
  else
    match s.val with
    | none => .error .attributeError
    | some v =>
      match v.numRef with
      | none => .error .attributeError
      | some nr => .ok (nr.f, nr.formatCode)

/-- Lines 239-240: `None if fmt == "General" else fmt`. -/
def normFormat (f : Option String) : Option String :=
  if f = some "General" then none else f

/-- Lines 287 and 293: `series.tx.v if series.tx else None`, then
`series_name if series_name else None` (an empty string is falsy). -/
def seriesNameOf (s : RawSeries) : Option String :=
  match s.tx with
  | none => none
  | some t =>
    match t.v with
    | none => none
    | some v => if v = "" then none else some v

/-- One normalized series record (the `ser` dict, lines 288-294). -/
structure SeriesRecord where
  category_axis_data : List CellVal
  value_axis_data : List CellVal
  category_value_format : Option String
  values_value_format : Option String
  series_name : Option String
deriving DecidableEq

/-- One iteration of the series loop body (lines 216-294, up to building
`ser`): update the carried category state, fetch the value reference, normalize
formats, resolve and dereference both ranges. -/
def seriesIter (chartType : String) (wb : Workbook) (st : CatState) (s : RawSeries) :
    Except PyErr (CatState × SeriesRecord) :=
  let st1 := if chartType = "scatterChart" then updateCatScatter st s else updateCatNonScatter st s
  match getValRef chartType s with
  | .error e => .error e
  | .ok (valRange, valFmt0) =>
    let st2 : CatState := { st1 with format := normFormat st1.format }
    let valFmt := normFormat valFmt0
    match derefRange wb (sheetNameOf st2.range) (resolveCatRange st2.range) with
    | .error e => .error e
    | .ok catData =>
      match derefRange wb (sheetNameOf valRange) (resolveValRange valRange) with
      | .error e => .error e
      | .ok valData =>
        .ok (st2, { category_axis_data := catData, value_axis_data := valData,
                    category_value_format := st2.format, values_value_format := valFmt,
                    series_name := seriesNameOf s })

/-- The Python variable `series`: initialised to a list accumulator at line
197, but rebound to the raw series descriptor by the loop header at line 215. -/
inductive SeriesVar where
  | pyList (recs : List SeriesRecord)
  | pyRaw (s : RawSeries)
deriving DecidableEq

/-- Line 295: `series.append(ser)`.  A list accumulator appends; a raw series
descriptor (an openpyxl `Series` object) has no `append` attribute and raises
`AttributeError`. -/
def seriesVarAppend : SeriesVar → SeriesRecord → Except PyErr SeriesVar
  | .pyList recs, r => .ok (.pyList (recs ++ [r]))
  | .pyRaw _, _ => .error .attributeError

/-- Lines 215-295: `for i, series in enumerate(chart.series): ...` — the loop
header rebinds `series` to the current raw descriptor, so line 295 appends to
that descriptor, not to the accumulator. -/
def seriesLoop (chartType : String) (wb : Workbook) :
    List RawSeries → SeriesVar → CatState → Except PyErr SeriesVar
  | [], v, _ => .ok v
  | s :: rest, _, st =>
    match seriesIter chartType wb st s with
    | .error e => .error e
    | .ok (st2, ser) =>
      match seriesVarAppend (.pyRaw s) ser with
      | .error e => .error e
      | .ok v2 => seriesLoop chartType wb rest v2 st2

/-!
## Chart Normalizer (`_parse_chart_data`, lines 192-305)
-/

/-- Lines 207-210: `title.tx.rich.p[0].r[-1].t`; `p[0]` on an empty paragraph
list and `r[-1]` on an empty run list raise `IndexError`. -/
def axisTitleText (t0 : Title) : Except PyErr String :=
  match t0.tx.rich.p with
  | [] => .error .indexError
  | p0 :: _ =>
    match p0.r.getLast? with
    | none => .error .indexError
    | some run => .ok run.t

/-- Lines 205-210: axis titles are left `None` for pie charts; otherwise read
from the axis title objects when present. -/
def axisTitles (chartType : String) (c : Chart) : Except PyErr (Option String × Option String) :=
  if chartType = "pieChart" then
    .ok (none, none)
  else
    match c.x_axis.title with
    | none =>
      match c.y_axis.title with
      | none => .ok (none, none)
      | some ty =>
        match axisTitleText ty with
        | .error e => .error e
        | .ok s => .ok (none, some s)
    | some tx0 =>
      match axisTitleText tx0 with
      | .error e => .error e
      | .ok sx =>
        match c.y_axis.title with
        | none => .ok (some sx, none)
        | some ty =>
          match axisTitleText ty with
          | .error e => .error e
          | .ok sy => .ok (some sx, some sy)

/-- Line 200-202: the warning text emitted for an unsupported chart type. -/
def warnUnsupported (chartTitle : String) : String :=
  "Chart titled " ++ (Char.ofNat 39).toString ++ chartTitle ++ (Char.ofNat 39).toString ++
    " is not of one of the allowed types and can not be visualised"

/-- The `chart_data` dict (lines 297-303).  The `series` field holds whatever
the Python variable `series` holds after the loop. -/
structure ChartData where
  chart_title : String
  chart_type : String
  x_axis_title : Option String
  y_axis_title : Option String
  series : SeriesVar
deriving DecidableEq

/-- `_parse_chart_data` (lines 192-305).  Returns the warnings emitted via
`UserMessage.warning` together with the result: `ok none` models the Python
`return None` for unsupported chart types, and `error` a raised exception
(line 194 raises `KeyError` when the title is not a key of `_charts_map`). -/
def parseChartData (cmap : List (String × Chart)) (chartTitle : String) (wb : Workbook) :
    List String × Except PyErr (Option ChartData) :=
  match assocFind cmap chartTitle with
  | none => ([], .error (.keyError chartTitle))
  | some chart =>
    let chartType := chart.tagname
    if chartType ∈ ALLOWED_FIGURE_TYPES then
      match axisTitles chartType chart with
      | .error e => ([], .error e)
      | .ok (xt, yt) =>
        match seriesLoop chartType wb chart.series (.pyList []) { range := [], format := none } with
        | .error e => ([], .error e)
        | .ok sv =>
          ([], .ok (some { chart_title := chartTitle, chart_type := chartType,
                           x_axis_title := xt, y_axis_title := yt, series := sv }))
    else
      ([warnUnsupported chartTitle], .ok none)

/-!
## Renderer (`_create_plotly_figure`, lines 307-348) — minimal skeleton
-/

/-- The produced figure: its traces and the layout fields the code sets. -/
structure Figure where
  traces : List SeriesRecord
  title_text : Option String
  xaxis_title : Option String
  yaxis_title : Option String
  yaxis_tickformat : Option String
  xaxis_tickformat : Option String
deriving DecidableEq

/-- `_create_plotly_figure`: iterates `chart_data["series"]` (a raw descriptor
there is not a sequence of records — `typeError`) and for line/bar/scatter
charts reads `chart_data["series"][0]` (`IndexError` when empty). -/
def createPlotlyFigure (cd : ChartData) : Except PyErr Figure :=
  match cd.series with
  | .pyRaw _ => .error .typeError
  | .pyList sers =>
    if cd.chart_type = "lineChart" ∨ cd.chart_type = "barChart" ∨
        cd.chart_type = "scatterChart" then
      match sers with
      | [] => .error .indexError
      | s0 :: _ =>
        .ok { traces := sers, title_text := some cd.chart_title,
              xaxis_title := cd.x_axis_title, yaxis_title := cd.y_axis_title,
              yaxis_tickformat := s0.values_value_format,
              xaxis_tickformat := s0.category_value_format }
    else if cd.chart_type = "pieChart" then
      .ok { traces := sers, title_text := some cd.chart_title, xaxis_title := none,
            yaxis_title := none, yaxis_tickformat := none, xaxis_tickformat := none }
    else
      .ok { traces := [], title_text := none, xaxis_title := none, yaxis_title := none,
            yaxis_tickformat := none, xaxis_tickformat := none }

/-- `get_plotly_figure_by_title` (lines 163-172), with the evaluated workbook
passed in (the evaluation collaborator is external).  Returns the warnings
emitted together with the figure or the raised exception. -/
def getPlotlyFigureByTitle (cmap : List (String × Chart)) (wb : Workbook) (title : String) :
    List String × Except PyErr Figure :=
  match parseChartData cmap title wb with
  | (ws, .error e) => (ws, .error e)
  | (ws, .ok none) => (ws, .error (.userError ("No figure found with title: " ++ title)))
  | (ws, .ok (some cd)) =>
    match createPlotlyFigure cd with
    | .error e => (ws, .error e)
    | .ok fig => (ws, .ok fig)

/-- `true` exactly on `Except.ok`. -/
def exceptOk {α β : Type} : Except α β → Bool
  | .ok _ => true
  | .error _ => false

/-- The loop of `get_figures_from_excel_file` (lines 152-161): the second
component records whether `wb.close()` (line 160) was reached.  An exception
raised inside the loop propagates without reaching the close. -/
def figuresGo (cmap : List (String × Chart)) (wb : Workbook) :
    List String → List (ChartData × Figure) → Except PyErr (List (ChartData × Figure)) × Bool
  | [], acc => (.ok acc, true)
  | t :: rest, acc =>
    match (parseChartData cmap t wb).2 with
    | .error e => (.error e, false)
    | .ok none => figuresGo cmap wb rest acc
    | .ok (some cd) =>
      match createPlotlyFigure cd with
      | .error e => (.error e, false)
      | .ok fig => figuresGo cmap wb rest (acc ++ [(cd, fig)])

/-- `get_figures_from_excel_file` (lines 148-161) over the evaluated workbook:
iterates the catalog keys in order. -/
def getFiguresFromExcelFile (cmap : List (String × Chart)) (wb : Workbook) :
    Except PyErr (List (ChartData × Figure)) × Bool :=
  figuresGo cmap wb (cmap.map (fun p => p.1)) []

/-!
## Chart Catalog (`__init__`, lines 42-56)
-/

/-- Line 50: `''.join([title_element.t for title_element in
chart.title.tx.rich.p[0].r])`; `p[0]` raises `IndexError` on an empty
paragraph list. -/
def chartTitleJoin (t0 : Title) : Except PyErr String :=
  match t0.tx.rich.p with
  | [] => .error .indexError
  | p0 :: _ => .ok (String.join (p0.r.map TitleRun.t))

/-- Lines 49-53: resolve one chart's catalog title, threading the
`untitled_index` counter. -/
def catalogStep (c : Chart) (n : Nat) : Except PyErr (String × Nat) :=
  match c.title with
  | some t0 =>
    match chartTitleJoin t0 with
    | .error e => .error e
    | .ok s => .ok (s, n)
  | none => .ok ("Untitled " ++ toString n, n + 1)

/-- The inner loop of lines 48-56 over one sheet's charts: assign titles and
insert into `_charts_map`. -/
def chartsLoop : List Chart → Nat → List (String × Chart) →
    Except PyErr (List (String × Chart) × Nat)
  | [], n, m => .ok (m, n)
  | c :: rest, n, m =>
    match catalogStep c n with
    | .error e => .error e
    | .ok (t, n2) => chartsLoop rest n2 (mapInsert m t c)

/-- The outer loop of lines 46-56 over the workbook's sheets (each sheet is its
chart list), threading the shared `untitled_index`. -/
def buildCatalogSheets : List (List Chart) → Nat → List (String × Chart) →
    Except PyErr (List (String × Chart) × Nat)
  | [], n, m => .ok (m, n)
  | sh :: rest, n, m =>
    match chartsLoop sh n m with
    | .error e => .error e
    | .ok (m2, n2) => buildCatalogSheets rest n2 m2

/-- `self._charts_map` as built by `__init__` (lines 42-56):
`untitled_index` starts at 1 and the map starts empty. -/
def buildCatalog (sheets : List (List Chart)) : Except PyErr (List (String × Chart)) :=
  match buildCatalogSheets sheets 1 [] with
  | .error e => .error e
  | .ok (m, _) => .ok m

/-!
## Input/Output Table Extractor (`get_input_cells`, lines 69-85)
-/

/-- One row of `iter_rows(min_row=2, max_col=4)`: the four cell values
(name, unit, description, default). -/
structure Row4 where
  name : CellVal
  unit : CellVal
  description : CellVal
  defaultV : CellVal
deriving DecidableEq

/-- One emitted input record (the dict at lines 77-83); `key` is the Python
key `"key"` and `defaultV` the Python key `"default"`. -/
structure InputCellRec where
  name : CellVal
  unit : CellVal
  description : CellVal
  defaultV : CellVal
  key : String
deriving DecidableEq

/-- Lines 74-84: `for index, row in enumerate(...)` — `index` counts every
iterated row; a row is emitted only when its first cell is truthy. -/
def getInputCellsGo : Nat → List Row4 → List InputCellRec
  | _, [] => []
  | i, r :: rest =>
    if r.name.truthy then
      { name := r.name, unit := if r.unit.truthy then r.unit else .str "",
        description := r.description, defaultV := r.defaultV,
        key := "input_" ++ toString i } :: getInputCellsGo (i + 1) rest
    else
      getInputCellsGo (i + 1) rest

/-- `get_input_cells` (lines 69-85) on the rows of the input sheet from row 2
onward. -/
def getInputCells (rows : List Row4) : List InputCellRec :=
  getInputCellsGo 0 rows

/-!
## Concrete fixtures
-/

deriving instance DecidableEq for Except

/-- An evaluated workbook with one sheet `Sheet1` exposing the two ranges the
fixture charts reference. -/
def exWb : Workbook :=
  [("Sheet1".toList,
    [("A1:A2".toList, [[WsEntry.cell (CellVal.str "X")], [WsEntry.cell (CellVal.str "Y")]]),
     ("B1:B2".toList, [[WsEntry.cell (CellVal.num 3)], [WsEntry.cell (CellVal.num 7)]]),
     ("$B$1:$B$2".toList, [[WsEntry.cell (CellVal.num 3)], [WsEntry.cell (CellVal.num 7)]])])]

/-- A series with a category string reference `Sheet1!$A$1:$A$2` and a value
reference `Sheet1!$B$1:$B$2` whose cached format is `"General"`. -/
def exS1 : RawSeries :=
  { xVal := none, yVal := none,
    cat := some { strRef := some { f := "Sheet1!$A$1:$A$2".toList }, numRef := none },
    val := some { strRef := none,
                  numRef := some { f := "Sheet1!$B$1:$B$2".toList,
                                   formatCode := some "General" } },
    tx := none }

/-- A series that omits its category reference. -/
def exS2 : RawSeries :=
  { xVal := none, yVal := none, cat := none,
    val := some { strRef := none,
                  numRef := some { f := "Sheet1!$B$1:$B$2".toList,
                                   formatCode := some "General" } },
    tx := none }

/-- A well-formed line chart with a single series. -/
def exChart1 : Chart :=
  { title := none, tagname := "lineChart", series := [exS1],
    x_axis := { title := none }, y_axis := { title := none } }

def exCatalog1 : List (String × Chart) := [("Line", exChart1)]

/-- A well-formed line chart with two series, the second omitting its
category reference. -/
def exChart5 : Chart :=
  { title := none, tagname := "lineChart", series := [exS1, exS2],
    x_axis := { title := none }, y_axis := { title := none } }

def exCatalog5 : List (String × Chart) := [("Line2", exChart5)]

/-- A chart of an unsupported type present in the catalog. -/
def exRadar : Chart :=
  { title := none, tagname := "radarChart", series := [],
    x_axis := { title := none }, y_axis := { title := none } }

/-- A chart whose explicit rich-text title has two paragraphs, with runs
`"A"` and `"B"` respectively. -/
def exChartTwoParas : Chart :=
  { title := some { tx := { rich := { p := [{ r := [{ t := "A" }] },
                                            { r := [{ t := "B" }] }] } } },
    tagname := "lineChart", series := [],
    x_axis := { title := none }, y_axis := { title := none } }

/-- Input-sheet rows: a named row, a row with an empty name cell, and another
named row. -/
def exRowsGap : List Row4 :=
  [{ name := CellVal.str "a", unit := CellVal.empty, description := CellVal.empty,
     defaultV := CellVal.empty },
   { name := CellVal.empty, unit := CellVal.empty, description := CellVal.empty,
     defaultV := CellVal.empty },
   { name := CellVal.str "b", unit := CellVal.empty, description := CellVal.empty,
     defaultV := CellVal.empty }]

/-!
## Specification-side definitions (for refinement comparison)
-/

/-- Number of charts without an explicit title. -/
def countUntitled (cs : List Chart) : Nat :=
  cs.countP (fun c => c.title.isNone)

/-- Insert a list of key/value pairs left to right with `dict` overwrite
semantics. -/
def insertAll (m : List (String × Chart)) : List (String × Chart) → List (String × Chart)
  | [] => m
  | (k, v) :: rest => insertAll (mapInsert m k v) rest

/-- Modelled from the amended claim C6's words: the sequence of titles
assigned to the charts in discovery order — an explicitly-titled chart gets
the concatenation of the runs of the first paragraph of its rich-text title,
an untitled chart gets `"Untitled n"` where `n` is a single running counter
(started at `start`) incremented per untitled chart. -/
def specCatalogTitles : Nat → List Chart → Except PyErr (List String)
  | _, [] => .ok []
  | n, c :: rest =>
    match c.title with
    | some t0 =>
      match chartTitleJoin t0 with
      | .error e => .error e
      | .ok s =>
        match specCatalogTitles n rest with
        | .error e => .error e
        | .ok ts => .ok (s :: ts)
    | none =>
      match specCatalogTitles (n + 1) rest with
      | .error e => .error e
      | .ok ts => .ok (("Untitled " ++ toString n) :: ts)

/-- The catalog predicted by the amended claim for a chart list: pair each
chart with its assigned title and insert in discovery order. -/
def specInsert (m : List (String × Chart)) (n : Nat) (cs : List Chart) :
    Except PyErr (List (String × Chart) × Nat) :=
  match specCatalogTitles n cs with
  | .error e => .error e
  | .ok ts => .ok (insertAll m (ts.zip cs), n + countUntitled cs)

/-!
## Helper lemmas
-/

theorem prefixMem {l1 l2 : List Char} {a : Char}
    (h : l1.isPrefixOf l2 = true) (ha : a ∈ l1) : a ∈ l2 := by
  induction l1 generalizing l2 with
  | nil => cases ha
  | cons x xs ih =>
    cases l2 with
    | nil => simp [List.isPrefixOf] at h
    | cons y ys =>
      simp only [List.isPrefixOf, Bool.and_eq_true, beq_iff_eq] at h
      rcases List.mem_cons.mp ha with rfl | h2
      · exact h.1 ▸ List.mem_cons_self _ _
      · exact List.mem_cons_of_mem _ (ih h.2 h2)

theorem pyReplaceAux_not_mem (old new : List Char) (a : Char) (ha : a ∈ old) :
    ∀ fuel s, a ∉ s → pyReplaceAux old new fuel s = s := by
  intro fuel
  induction fuel with
  | zero => intro s _; cases s <;> simp [pyReplaceAux]
  | succ k ih =>
    intro s hs
    cases s with
    | nil => simp [pyReplaceAux]
    | cons c rest =>
      have hrest : a ∉ rest := fun h => hs (List.mem_cons_of_mem _ h)
      simp only [pyReplaceAux]
      rw [if_neg]
      · rw [ih rest hrest]
      · rintro ⟨-, hp⟩
        exact hs (prefixMem hp ha)

/-- `s.replace(old, new) = s` whenever some character of `old` never occurs
in `s` (so `old` has no occurrence in `s`). -/
theorem pyReplace_not_mem {s old : List Char} (new : List Char) {a : Char}
    (ha : a ∈ old) (hs : a ∉ s) : pyReplace s old new = s :=
  pyReplaceAux_not_mem old new a ha s.length s hs

theorem pyReplaceAux_filter (c : Char) :
    ∀ fuel s, s.length ≤ fuel →
      pyReplaceAux [c] [] fuel s = s.filter (fun a => a != c) := by
  intro fuel
  induction fuel with
  | zero =>
    intro s h
    have : s = [] := List.length_eq_zero.mp (Nat.le_zero.mp h)
    subst this; simp [pyReplaceAux]
  | succ k ih =>
    intro s h
    cases s with
    | nil => simp [pyReplaceAux]
    | cons x rest =>
      have hlen : rest.length ≤ k := by
        simp only [List.length_cons] at h; omega
      simp only [pyReplaceAux]
      by_cases hx : x = c
      · subst hx
        rw [if_pos ⟨by simp, by simp [List.isPrefixOf]⟩]
        simp only [List.length_singleton, List.drop_succ_cons, List.drop_zero,
          List.nil_append]
        rw [ih rest hlen]
        simp [List.filter_cons]
      · rw [if_neg]
        · rw [ih rest hlen]
          simp [List.filter_cons, bne, hx]
        · rintro ⟨-, hp⟩
          simp only [List.isPrefixOf, Bool.and_eq_true, beq_iff_eq] at hp
          exact hx hp.1.symm

/-- Replacing a single character by the empty string is filtering it out. -/
theorem pyReplace_filter (s : Str) (c : Char) :
    pyReplace s [c] [] = s.filter (fun a => a != c) :=
  pyReplaceAux_filter c s.length s (Nat.le_refl _)

theorem pySplit_ne_nil (sep : Char) (s : List Char) : pySplit sep s ≠ [] := by
  cases s with
  | nil => simp [pySplit]
  | cons c rest =>
    simp only [pySplit]
    by_cases h : c = sep
    · simp [h]
    · rw [if_neg h]
      cases pySplit sep rest <;> simp

theorem pySplit_no_sep {sep : Char} {s : List Char} (h : sep ∉ s) :
    pySplit sep s = [s] := by
  induction s with
  | nil => rfl
  | cons c rest ih =>
    have hc : ¬c = sep := fun hcs => h (hcs ▸ List.mem_cons_self _ _)
    have hrest : sep ∉ rest := fun hr => h (List.mem_cons_of_mem _ hr)
    simp only [pySplit, if_neg hc, ih hrest]

theorem pySplit_head_append {sep : Char} {a : List Char} (b : List Char)
    (ha : sep ∉ a) : pySplit sep (a ++ sep :: b) = a :: pySplit sep b := by
  induction a with
  | nil => simp [pySplit]
  | cons c a2 ih =>
    have hc : ¬c = sep := fun hcs => ha (hcs ▸ List.mem_cons_self _ _)
    have ha2 : sep ∉ a2 := fun hr => ha (List.mem_cons_of_mem _ hr)
    simp only [List.cons_append, pySplit, if_neg hc, List.append_eq, ih ha2]

theorem pySplit_sub (sep : Char) :
    ∀ s : List Char, ∀ g ∈ pySplit sep s, ∀ a ∈ g, a ∈ s := by
  intro s
  induction s with
  | nil =>
    intro g hg a hag
    simp only [pySplit, List.mem_singleton] at hg
    subst hg; cases hag
  | cons c rest ih =>
    intro g hg a hag
    simp only [pySplit] at hg
    by_cases hc : c = sep
    · rw [if_pos hc] at hg
      rcases List.mem_cons.mp hg with rfl | hg2
      · cases hag
      · exact List.mem_cons_of_mem _ (ih g hg2 a hag)
    · rw [if_neg hc] at hg
      rcases hrec : pySplit sep rest with - | ⟨g0, gs⟩
      · exact absurd hrec (pySplit_ne_nil sep rest)
      · rw [hrec] at hg
        rcases List.mem_cons.mp hg with rfl | hg2
        · rcases List.mem_cons.mp hag with rfl | hag2
          · exact List.mem_cons_self _ _
          · have : a ∈ rest := ih g0 (hrec ▸ List.mem_cons_self _ _) a hag2
            exact List.mem_cons_of_mem _ this
        · have : a ∈ rest := ih g (hrec ▸ List.mem_cons_of_mem _ hg2) a hag
          exact List.mem_cons_of_mem _ this

theorem pyHead_mem {l : List (List Char)} (h : l ≠ []) : pyHead l ∈ l := by
  cases l with
  | nil => exact absurd rfl h
  | cons g gs => exact List.mem_cons_self _ _

theorem pyLast_mem {l : List (List Char)} (h : l ≠ []) : pyLast l ∈ l := by
  induction l with
  | nil => exact absurd rfl h
  | cons g gs ih =>
    cases gs with
    | nil => simp [pyLast]
    | cons g2 gs2 =>
      simp only [pyLast]
      exact List.mem_cons_of_mem _ (ih (by simp))

/-- Every character of `commaCollapse s` is the inserted `:` or a character
of `s`. -/
theorem mem_commaCollapse {s : Str} {a : Char} (h : a ∈ commaCollapse s) :
    a = Char.ofNat 58 ∨ a ∈ s := by
  unfold commaCollapse at h
  split at h
  · rcases List.mem_append.mp h with h1 | h2
    · exact Or.inr (pySplit_sub _ s _ (pyHead_mem (pySplit_ne_nil _ _)) a h1)
    · rcases List.mem_cons.mp h2 with rfl | h3
      · exact Or.inl rfl
      · exact Or.inr (pySplit_sub _ s _ (pyLast_mem (pySplit_ne_nil _ _)) a h3)
  · exact Or.inr h

/-- The `wb.close()` flag returned by the figure loop is set exactly when the
loop finished without a raised exception. -/
theorem figuresGo_closed (cmap : List (String × Chart)) (wb : Workbook) :
    ∀ ts acc, (figuresGo cmap wb ts acc).2 = exceptOk (figuresGo cmap wb ts acc).1 := by
  intro ts
  induction ts with
  | nil => intro acc; rfl
  | cons t rest ih =>
    intro acc
    simp only [figuresGo]
    rcases hp : (parseChartData cmap t wb).2 with e | oc
    · rfl
    · cases oc with
      | none => exact ih acc
      | some cd =>
        dsimp only
        rcases hc : createPlotlyFigure cd with e | fig
        · rfl
        · exact ih (acc ++ [(cd, fig)])

/-- The keys emitted by `getInputCellsGo` are `input_{j}` for the positions
`j` of the truthy-named rows in the full enumeration that starts at `i`. -/
theorem getInputCellsGo_keys : ∀ (rows : List Row4) (i : Nat),
    (getInputCellsGo i rows).map InputCellRec.key
      = ((List.enumFrom i rows).filter (fun p => p.2.name.truthy)).map
          (fun p => "input_" ++ toString p.1) := by
  intro rows
  induction rows with
  | nil => intro i; rfl
  | cons r rest ih =>
    intro i
    simp only [getInputCellsGo, List.enumFrom, List.filter_cons]
    by_cases h : r.name.truthy
    · simp [h, ih]
    · simp [h, ih]

/-- The per-chart catalog step, characterized against the spec-side title
assignment. -/
theorem chartsLoop_char : ∀ (cs : List Chart) (n : Nat) (m : List (String × Chart)),
    chartsLoop cs n m = specInsert m n cs := by
  intro cs
  induction cs with
  | nil =>
    intro n m
    simp [chartsLoop, specInsert, specCatalogTitles, insertAll, countUntitled]
  | cons c rest ih =>
    intro n m
    simp only [chartsLoop, catalogStep]
    rcases htitle : c.title with - | t0
    · dsimp only
      rw [ih]
      simp only [specInsert, specCatalogTitles, htitle]
      rcases hts : specCatalogTitles (n + 1) rest with e | ts
      · rfl
      · dsimp only
        simp only [insertAll, Except.ok.injEq, Prod.mk.injEq, List.zip_cons_cons,
          countUntitled, List.countP_cons, htitle, Option.isNone_none, if_true]
        exact ⟨rfl, by omega⟩
    · dsimp only
      rcases hj : chartTitleJoin t0 with e | s
      · simp [specInsert, specCatalogTitles, htitle, hj]
      · dsimp only
        rw [ih]
        simp only [specInsert, specCatalogTitles, htitle, hj]
        rcases hts : specCatalogTitles n rest with e | ts
        · rfl
        · dsimp only
          simp only [insertAll, Except.ok.injEq, Prod.mk.injEq, List.zip_cons_cons,
            countUntitled, List.countP_cons, htitle]
          exact ⟨rfl, by simp⟩

/-- Running the chart loop over a concatenation threads the map and the
counter. -/
theorem chartsLoop_append : ∀ (xs ys : List Chart) (n : Nat) (m : List (String × Chart)),
    chartsLoop (xs ++ ys) n m
      = match chartsLoop xs n m with
        | .error e => .error e
        | .ok (m2, n2) => chartsLoop ys n2 m2 := by
  intro xs
  induction xs with
  | nil => intro ys n m; rfl
  | cons c rest ih =>
    intro ys n m
    simp only [List.cons_append, chartsLoop]
    rcases catalogStep c n with e | ⟨t, n2⟩
    · rfl
    · exact ih ys n2 (mapInsert m t c)

/-- The nested sheet/chart loops of `__init__` equal one pass over the charts
flattened in discovery order: the `untitled_index` counter is shared across
sheets, not restarted per sheet. -/
theorem buildCatalogSheets_flat : ∀ (shs : List (List Chart)) (n : Nat)
    (m : List (String × Chart)),
    buildCatalogSheets shs n m = chartsLoop shs.flatten n m := by
  intro shs
  induction shs with
  | nil => intro n m; rfl
  | cons sh rest ih =>
    intro n m
    simp only [buildCatalogSheets, List.flatten_cons, chartsLoop_append]
    rcases chartsLoop sh n m with e | ⟨m2, n2⟩
    · rfl
    · exact ih n2 m2

/-!
## Claim theorems
-/

/-- Claim C1 (code_bug): on a supported, well-formed line chart with one
series over a workbook resolving both references, `_parse_chart_data` raises
`AttributeError` instead of returning a chart record with one series record:
the loop header at line 215 rebinds the accumulator variable `series` to the
raw series descriptor, so `series.append(ser)` at line 295 is attribute access
on an openpyxl `Series` object. -/
theorem c1_parse_raises_at_append :
    parseChartData exCatalog1 "Line" exWb
      = ([], Except.error PyErr.attributeError) := by decide

/-- Claim C2 counterexample: resolving
`Sheet1!$A$1:$A$3,Sheet1!$A$5:$A$7` yields `A1:A3:A5:A7`, not the claimed
`A1:A7` — line 258 joins the entire first and last comma-segments with `:`. -/
theorem c2_union_counterexample :
    resolveCatRange ("Sheet1!$A$1:$A$3,Sheet1!$A$5:$A$7".toList) = "A1:A3:A5:A7".toList
    ∧ resolveCatRange ("Sheet1!$A$1:$A$3,Sheet1!$A$5:$A$7".toList) ≠ "A1:A7".toList := by
  decide

/-- Claim C2 (corrected): for a two-segment body the collapse step of the
range resolver (line 258) concatenates the whole first segment, a `:`, and
the whole last segment; it does not reduce the segments to the first start
cell and last end cell. -/
theorem c2_union_joins_whole_segments (a b : Str)
    (ha : Char.ofNat 44 ∉ a) (hb : Char.ofNat 44 ∉ b) :
    commaCollapse (a ++ Char.ofNat 44 :: b) = a ++ Char.ofNat 58 :: b := by
  have hmem : Char.ofNat 44 ∈ a ++ Char.ofNat 44 :: b :=
    List.mem_append_right _ (List.mem_cons_self _ _)
  rw [commaCollapse, if_pos hmem, pySplit_head_append b ha, pySplit_no_sep hb]
  rfl

/-- Witness for C2's amended theorem at the body of the claim's own input. -/
theorem c2_union_joins_whole_segments_witness :
    commaCollapse ("A1:A3".toList ++ Char.ofNat 44 :: "A5:A7".toList)
      = "A1:A3".toList ++ Char.ofNat 58 :: "A5:A7".toList :=
  c2_union_joins_whole_segments _ _ (by decide) (by decide)

/-- Claim C3 counterexample: requesting a title absent from the catalog raises
`KeyError` at line 194 (`self._charts_map[chart_title]` inside
`_parse_chart_data`), not the claimed `UserError`
"No figure found with title: ...". -/
theorem c3_missing_title_counterexample :
    getPlotlyFigureByTitle [] exWb "Sales" = ([], Except.error (PyErr.keyError "Sales"))
    ∧ getPlotlyFigureByTitle [] exWb "Sales"
        ≠ ([], Except.error (PyErr.userError "No figure found with title: Sales")) := by
  decide

/-- Claim C3 (corrected): for every title that is not a key of the catalog,
`get_plotly_figure_by_title` fails with a `KeyError` naming the title; the
"No figure found with title" `UserError` is not reached on this path. -/
theorem c3_missing_title_keyerror (cmap : List (String × Chart)) (wb : Workbook)
    (t : String) (h : assocFind cmap t = none) :
    getPlotlyFigureByTitle cmap wb t = ([], Except.error (PyErr.keyError t)) := by
  simp [getPlotlyFigureByTitle, parseChartData, h]

/-- Witness for C3's amended theorem at a concrete catalog and title. -/
theorem c3_missing_title_keyerror_witness :
    getPlotlyFigureByTitle exCatalog1 exWb "Missing"
      = ([], Except.error (PyErr.keyError "Missing")) :=
  c3_missing_title_keyerror exCatalog1 exWb "Missing" (by decide)

/-- Claim C4 counterexample: the value-range pipeline (lines 273-279) has no
`.replace('$', "")` step, so a normalized value range used to index the
workbook can contain `$`. -/
theorem c4_value_range_keeps_dollar :
    resolveValRange ("Sheet1!$B$1:$B$3".toList) = "$B$1:$B$3".toList
    ∧ Char.ofNat 36 ∈ resolveValRange ("Sheet1!$B$1:$B$3".toList) := by decide

/-- Claim C4 (corrected): every resolved category range is free of `$` (the
pipeline at lines 250-257 strips it), but value ranges (lines 273-279) are
not stripped and can retain `$`. -/
theorem c4_only_category_ranges_strip_dollar :
    (∀ r : Str, Char.ofNat 36 ∉ resolveCatRange r)
    ∧ Char.ofNat 36 ∈ resolveValRange ("Sheet1!$B$1:$B$2".toList) := by
  constructor
  · intro r hr
    unfold resolveCatRange at hr
    rcases mem_commaCollapse hr with h58 | hbody
    · exact absurd h58 (by decide)
    · rw [pyReplace_filter] at hbody
      have hne := (List.mem_filter.mp hbody).2
      simp at hne
  · decide

/-- Claim C5 (code_bug): the carry-forward step (lines 228-234) does keep the
first series' resolved category reference for a second series that omits its
own, but the shadowing slip at line 295 raises `AttributeError` at the end of
the first series' iteration, so the second series is never processed and its
category values never materialize. -/
theorem c5_carry_forward_unreachable :
    (parseChartData exCatalog5 "Line2" exWb).2 = Except.error PyErr.attributeError
    ∧ seriesIter "lineChart" exWb { range := [], format := none } exS1
        = Except.ok ({ range := "Sheet1!$A$1:$A$2".toList, format := none },
               { category_axis_data := [CellVal.str "X", CellVal.str "Y"],
                 value_axis_data := [CellVal.num 3, CellVal.num 7],
                 category_value_format := none, values_value_format := none,
                 series_name := none })
    ∧ updateCatNonScatter { range := "Sheet1!$A$1:$A$2".toList, format := none } exS2
        = { range := "Sheet1!$A$1:$A$2".toList, format := none } := by decide

/-- Claim C6 counterexample: a chart whose rich-text title has two paragraphs
(runs "A" and "B") is keyed by `"A"` — only `p[0]`'s runs are concatenated
(line 50) — while the concatenation of all its title runs is `"AB"`. -/
theorem c6_first_paragraph_only :
    buildCatalog [[exChartTwoParas]] = Except.ok [("A", exChartTwoParas)]
    ∧ ("A" : String) ≠ "AB" := by decide

/-- Claim C6 (corrected): the catalog keys each explicitly-titled chart by the
concatenation of the runs of the FIRST paragraph of its rich-text title, and
assigns untitled charts `"Untitled n"` with a single counter starting at 1,
shared across all sheets and incremented in discovery order (sheet order,
then in-sheet order — the flattened order), duplicates overwriting. -/
theorem c6_catalog_titles (sheets : List (List Chart)) :
    buildCatalog sheets
      = match specCatalogTitles 1 sheets.flatten with
        | .error e => .error e
        | .ok ts => .ok (insertAll [] (ts.zip sheets.flatten)) := by
  unfold buildCatalog
  rw [buildCatalogSheets_flat, chartsLoop_char]
  unfold specInsert
  rcases hspec : specCatalogTitles 1 sheets.flatten with e | ts <;> simp [hspec]

/-- Claim C7 counterexample: when a chart's extraction raises (here the
`AttributeError` of the shadowing slip), `get_figures_from_excel_file`
propagates the exception and `wb.close()` (line 160) is never reached — the
close flag is `false`. -/
theorem c7_close_skipped_on_error :
    getFiguresFromExcelFile exCatalog1 exWb
      = (Except.error PyErr.attributeError, false) := by decide

/-- Claim C7 (corrected): the evaluated workbook handle is closed exactly when
no chart extraction raised — an exception propagates past the close (there is
no try/finally), while skipped charts still reach it. -/
theorem c7_closed_iff_no_exception (cmap : List (String × Chart)) (wb : Workbook) :
    (getFiguresFromExcelFile cmap wb).2 = exceptOk (getFiguresFromExcelFile cmap wb).1 := by
  unfold getFiguresFromExcelFile
  exact figuresGo_closed cmap wb _ _

/-- Claim C8 counterexample: with rows named "a", (empty), "b" from row 2
onward, the emitted keys are `input_0` and `input_2` — the skipped row leaves
a gap — not the claimed gap-free `input_0`, `input_1`. -/
theorem c8_keys_skip_rows_leave_gaps :
    (getInputCells exRowsGap).map InputCellRec.key = ["input_0", "input_2"]
    ∧ (getInputCells exRowsGap).map InputCellRec.key ≠ ["input_0", "input_1"] := by
  decide

/-- Claim C8 (corrected): `get_input_cells` keys each included row by the row's
0-based index in the FULL enumeration of rows from row 2 onward (skipped rows
included), so rows with an empty name cell do leave gaps. -/
theorem c8_keys_index_all_rows (rows : List Row4) :
    (getInputCells rows).map InputCellRec.key
      = ((List.enum rows).filter (fun p => p.2.name.truthy)).map
          (fun p => "input_" ++ toString p.1) := by
  have h := getInputCellsGo_keys rows 0
  simpa [getInputCells, List.enum] using h

/-- Claim C9 (confirmed): the category-range strip-and-collapse pipeline is
the identity on an already-normalized range string — one containing no
parentheses, quotes, `!` (sheet prefix), `$` markers, or commas. -/
theorem c9_resolver_identity_on_plain (x : Str)
    (h1 : Char.ofNat 40 ∉ x) (h2 : Char.ofNat 41 ∉ x) (h3 : quoteChar ∉ x)
    (h4 : Char.ofNat 33 ∉ x) (h5 : Char.ofNat 36 ∉ x) (h6 : Char.ofNat 44 ∉ x) :
    resolveCatRange x = x := by
  have hclean : cleanRef x = x := by
    unfold cleanRef
    rw [pyReplace_not_mem [] (List.mem_singleton.mpr rfl) h1,
        pyReplace_not_mem [] (List.mem_singleton.mpr rfl) h2,
        pyReplace_not_mem [] (List.mem_singleton.mpr rfl) h3]
  have hsheet : sheetNameOf x = x := by
    unfold sheetNameOf
    rw [hclean, pySplit_no_sep h4]
    rfl
  unfold resolveCatRange
  rw [hclean, hsheet,
      pyReplace_not_mem [] (List.mem_append_right _ (List.mem_singleton.mpr rfl)) h4,
      pyReplace_not_mem [] (List.mem_singleton.mpr rfl) h5]
  unfold commaCollapse
  rw [if_neg h6]

/-- Witness for C9 at the plain range `A1:A7`. -/
theorem c9_resolver_identity_witness :
    resolveCatRange ("A1:A7".toList) = "A1:A7".toList :=
  c9_resolver_identity_on_plain _ (by decide) (by decide) (by decide) (by decide)
    (by decide) (by decide)

/-- Claim C10 (confirmed): a chart present in the catalog whose type tag is
not allowed makes `get_plotly_figure_by_title` emit the unsupported-type
warning and then raise the `UserError` "No figure found with title: ..." for
that existing title (lines 199-203 return `None`, line 170 raises). -/
theorem c10_unsupported_type_not_found_error (cmap : List (String × Chart))
    (wb : Workbook) (t : String) (c : Chart)
    (h1 : assocFind cmap t = some c) (h2 : c.tagname ∉ ALLOWED_FIGURE_TYPES) :
    getPlotlyFigureByTitle cmap wb t
      = ([warnUnsupported t],
         Except.error (PyErr.userError ("No figure found with title: " ++ t))) := by
  simp [getPlotlyFigureByTitle, parseChartData, h1, h2]

/-- Witness for C10 at a concrete radar chart catalogued under "Radar". -/
theorem c10_unsupported_type_witness :
    getPlotlyFigureByTitle [("Radar", exRadar)] exWb "Radar"
      = ([warnUnsupported "Radar"],
         Except.error (PyErr.userError ("No figure found with title: " ++ "Radar"))) :=
  c10_unsupported_type_not_found_error [("Radar", exRadar)] exWb "Radar" exRadar
    (by decide) (by decide)
